import Mathlib

/-!
Verification development for the `ntt_project_manager` repository.

The definitions below are a shallow embedding of the Python sources:

* `src/ntt_project_manager/models.py` — the data model (`BuildConfig`,
  `OSBuildConfig`, `BuildTypeConfig`, `Project`, `Settings`, `SystemInfo`),
  together with the `ExecutableConfig` record and the per-project
  `executables` / `buildTypesConfig` fields whose uses appear throughout
  `manager.py`;
* `src/ntt_project_manager/manager.py` — the cascading config-file reader
  (`_ExtractCConfigFilesOptionsInternal`), the command composer
  (`_ExtractCProjectInformation`) and the action dispatcher (`_Execute`).

Strings are modelled with Lean `String`; Python `os.path.join` is modelled as
separator concatenation for the host platform; the jinja2 template engine is
modelled on pre-parsed templates (lists of literal/placeholder segments) with
the engine's default `Undefined` semantics.  File systems are modelled as
partial maps from file name to the list of lines of the file.
-/

namespace ProjectManager

/-! ## Cascading config-file reader (`_ExtractCConfigFilesOptionsInternal`) -/

/-- Models Python `\s` for the whitespace that can occur inside a
stripped line of a config file (space or tab). -/
def isSp (c : Char) : Bool := c = ' ' || c = '\t'

/-- Models Python `\w` (ASCII range): letters, digits and underscore. -/
def isWordChar (c : Char) : Bool := c.isAlphanum || c = '_'

/-- Models Python `str.strip()`: drop whitespace from both ends of the line. -/
def stripChars (l : List Char) : List Char :=
  ((l.dropWhile isSp).reverse.dropWhile isSp).reverse

/-- Index of the last occurrence of `c` in `l`, if any. -/
def lastIdxOf (c : Char) (l : List Char) : Option Nat :=
  match l.reverse.findIdx? (· = c) with
  | none => none
  | some r => some (l.length - 1 - r)

/-- Models `re.match(r"<(.+)>", line)` from
`Manager._ExtractCConfigFilesOptionsInternal`: the line must start with `<`,
and the greedy group extends to the last `>` of the line; the group must be
non-empty.  Returns the include file name. -/
def parseIncludeChars (l : List Char) : Option String :=
  match l with
  | '<' :: rest =>
    match lastIdxOf '>' rest with
    | none => none
    | some j => if 1 ≤ j then some ⟨rest.take j⟩ else none
  | _ => none

/-- Models `re.match(r"(\w+)\s*=\s*(.+)", line)` from
`Manager._ExtractCConfigFilesOptionsInternal`: a non-empty run of word
characters, optional whitespace, `=`, optional whitespace, and a non-empty
remainder taken verbatim as the value. -/
def parseKVChars (l : List Char) : Option (String × String) :=
  let key := l.takeWhile isWordChar
  if key = [] then none
  else
    match (l.dropWhile isWordChar).dropWhile isSp with
    | '=' :: rest =>
      let v := rest.dropWhile isSp
      if v = [] then none else some (⟨key⟩, ⟨v⟩)
    | _ => none

/-- Classification of one config-file line, after stripping.  `skip` covers
the blank line, the `#` comment and the unmatched line (all ignored by the
source); `inc` is an `<file>` include directive; `kv` is a `key = value`
assignment. -/
inductive LineKind where
  | skip
  | inc (name : String)
  | kv (key value : String)
deriving DecidableEq, Repr

/-- Line dispatcher of `_ExtractCConfigFilesOptionsInternal`, in source
order: strip, skip blank/comment lines, try the include pattern, then the
key/value pattern, otherwise ignore the line. -/
def lineKind (line : String) : LineKind :=
  match stripChars line.data with
  | [] => LineKind.skip
  | c :: rest =>
    if c = '#' then LineKind.skip
    else
      match parseIncludeChars (c :: rest) with
      | some n => LineKind.inc n
      | none =>
        match parseKVChars (c :: rest) with
        | some (k, v) => LineKind.kv k v
        | none => LineKind.skip

/-- Lookup in an insertion-ordered association list; models `dict.get` /
`dict[...]` for the dictionaries of the source. -/
def lookupAssoc {β : Type} : List (String × β) → String → Option β
  | [], _ => none
  | (k', v) :: rest, k => if k' = k then some v else lookupAssoc rest k

/-- Assignment `d[k] = v` on an insertion-ordered association list: an
existing key keeps its position and gets the new value, a new key is
appended.  Models Python dict assignment. -/
def setAssoc {β : Type} : List (String × β) → String → β → List (String × β)
  | [], k, v => [(k, v)]
  | (k', v') :: rest, k, v =>
    if k' = k then (k', v) :: rest else (k', v') :: setAssoc rest k v

/-- Models `options.update(includedOptions)`: every pair of the included
mapping is assigned into `opts`, in order. -/
def mergeOptions (opts : List (String × String)) (included : List (String × String)) :
    List (String × String) :=
  included.foldl (fun o kv => setAssoc o kv.1 kv.2) opts

/-- One step of the line loop of `_ExtractCConfigFilesOptionsInternal`;
`readInc` performs the recursive read of an included file.  `none` models a
crash of the recursive read (the source has no cycle detection). -/
def readLineStep (readInc : String → Option (List (String × String)))
    (opts : List (String × String)) (line : String) : Option (List (String × String)) :=
  match lineKind line with
  | LineKind.skip => some opts
  | LineKind.inc n =>
    match readInc n with
    | none => none
    | some inc => some (mergeOptions opts inc)
  | LineKind.kv k v => some (setAssoc opts k v)

/-- Models `Manager._ExtractCConfigFilesOptionsInternal`.  `fs` maps a file
name inside the project's `config` directory to its lines; a missing file
yields the empty mapping (not an error).  `fuel` bounds the include
recursion depth; exhausted fuel (`none`) models the unbounded recursion of
the source on an include cycle. -/
def readOptionsAux (fs : String → Option (List String)) :
    Nat → String → Option (List (String × String))
  | 0, _ => none
  | fuel + 1, name =>
    match fs name with
    | none => some []
    | some lines => lines.foldlM (readLineStep (readOptionsAux fs fuel)) []

/-- Models `Manager._ExtractCConfigFilesOptions`: read
`config/<buildType>.cfg`.  The `fuel + 1` reflects that the top-level call
always has a stack frame available. -/
def extractCConfigFilesOptions (fs : String → Option (List String)) (fuel : Nat)
    (buildType : String) : Option (List (String × String)) :=
  readOptionsAux fs (fuel + 1) (buildType ++ ".cfg")

/-! ## Template engine (`jinja2.Template(...).render(**constants)`) -/

/-- A pre-parsed jinja2 template: literal text interleaved with placeholder
references. -/
inductive TmplSeg where
  | lit (s : String)
  | varRef (k : String)
deriving DecidableEq, Repr

/-- Models `jinja2.Template(t).render(**ctx)` with the engine's default
`Undefined`: printing a placeholder whose key is absent from the context
yields the empty string; rendering never raises for plain placeholder
references. -/
def renderT : List TmplSeg → List (String × String) → String
  | [], _ => ""
  | TmplSeg.lit s :: rest, ctx => s ++ renderT rest ctx
  | TmplSeg.varRef k :: rest, ctx =>
    (match lookupAssoc ctx k with
     | some v => v
     | none => "") ++ renderT rest ctx

/-- Modelled from the spec: the strict `Render` the specification describes,
which fails (`UndefinedVariableError`, here `none`) whenever the template
references a placeholder key absent from the context mapping.  Stated for
comparison with `renderT`, the renderer of the source. -/
def renderStrictSpec : List TmplSeg → List (String × String) → Option String
  | [], _ => some ""
  | TmplSeg.lit s :: rest, ctx => (renderStrictSpec rest ctx).map (fun r => s ++ r)
  | TmplSeg.varRef k :: rest, ctx =>
    match lookupAssoc ctx k with
    | none => none
    | some v => (renderStrictSpec rest ctx).map (fun r => v ++ r)

/-! ## Data model (`models.py`, plus the fields used by `manager.py`) -/

/-- Models `OSBuildConfig` of `models.py`. -/
structure OSBuildConfig where
  cmake_tool : String
deriving DecidableEq, Repr

/-- Models `BuildTypeConfig` of `models.py`; its `options` string is a
template, kept here in pre-parsed form. -/
structure BuildTypeConfig where
  options : List TmplSeg
deriving DecidableEq, Repr

/-- Models `BuildConfig` of `models.py`. -/
structure BuildConfig where
  windows : OSBuildConfig
  linux : OSBuildConfig
  neededCommands : List String
  buildTypesConfig : List (String × BuildTypeConfig)
deriving DecidableEq, Repr

/-- Models the `ExecutableConfig` record used by `manager.py`
(`executable.name`, `executable.windowsPath`, `executable.linuxPath`); the
OS-specific paths are templates. -/
structure ExecutableConfig where
  name : String
  windowsPath : List TmplSeg
  linuxPath : List TmplSeg
deriving DecidableEq, Repr

/-- Models the `Project` record as used by `manager.py`: `name`, `language`
and `type` from `models.py`, plus the optional `executables` list and the
optional per-project `buildTypesConfig` mapping that
`Manager._ExtractInformation` / `_ExtractCProjectInformation` read. -/
structure Project where
  name : String
  language : String
  type : String
  executables : Option (List ExecutableConfig) := none
  buildTypesConfig : Option (List (String × BuildTypeConfig)) := none
deriving DecidableEq, Repr

/-- Models `Settings` of `models.py`. -/
structure Settings where
  config : BuildConfig
  projects : List Project
deriving DecidableEq, Repr

/-- Models the default `BuildConfig` factory of `models.py` (default
`cmake_tool` per OS, `neededCommands`, and the four default build-type
option layers, in source order). -/
def defaultBuildConfig : BuildConfig :=
  { windows := { cmake_tool := "Visual Studio 17 2022" }
    linux := { cmake_tool := "Unix Makefiles" }
    neededCommands := ["cmake", "git"]
    buildTypesConfig :=
      [("debug", { options := [TmplSeg.lit "-DCMAKE_BUILD_TYPE=Debug"] }),
       ("release", { options := [TmplSeg.lit "-DCMAKE_BUILD_TYPE=Release"] }),
       ("web", { options := [TmplSeg.lit "-DCMAKE_BUILD_TYPE=Release -DWEB_BUILD=ON"] }),
       ("test", { options := [TmplSeg.lit "-DCMAKE_BUILD_TYPE=Debug -DENABLE_TESTS=ON"] })] }

/-- Models `SystemInfo.PLATFORM`: host platform detected once per process
(`os.name == "nt"` vs. anything else). -/
inductive Platform where
  | windows
  | linux
deriving DecidableEq, Repr

/-- Platform string, as `SystemInfo.PLATFORM` computes it. -/
def Platform.str : Platform → String
  | Platform.windows => "windows"
  | Platform.linux => "linux"

/-- Path separator used by `os.path.join` on the host platform. -/
def Platform.sep : Platform → String
  | Platform.windows => "\\"
  | Platform.linux => "/"

/-- Models `os.path.join(a, b)` for the ordinary case of a relative second
component: concatenation with the host separator. -/
def pathJoin (p : Platform) (a b : String) : String := a ++ p.sep ++ b

/-- Models the four valid `--type` values of the CLI (`BuildType` of
`models.py`, also the `choices` of the argument parser). -/
inductive BuildType where
  | debug
  | release
  | test
  | web
deriving DecidableEq, Repr

/-- String value of a build type. -/
def BuildType.str : BuildType → String
  | BuildType.debug => "debug"
  | BuildType.release => "release"
  | BuildType.test => "test"
  | BuildType.web => "web"

/-! ## Command composer (`Manager._ExtractCProjectInformation`) -/

/-- Models `self._cProjectBuildDir`:
`os.path.join(baseDir, projectName, "build", PLATFORM, buildType)`. -/
def buildDirOf (p : Platform) (baseDir projectName buildType : String) : String :=
  pathJoin p (pathJoin p (pathJoin p (pathJoin p baseDir projectName) "build") p.str) buildType

/-- Models the `constants` context dictionary built by
`_ExtractCProjectInformation`. -/
def constantsOf (buildDir projectDir projectName buildType platformStr : String) :
    List (String × String) :=
  [("BUILD_DIR", buildDir), ("PROJECT_DIR", projectDir), ("PROJECT_NAME", projectName),
   ("BUILD_TYPE", buildType), ("PLATFORM", platformStr)]

/-- Models the per-OS generator config selection
(`settings.config.windows` when `os.name == "nt"`, else
`settings.config.linux`). -/
def osConfigOf (cfg : BuildConfig) : Platform → OSBuildConfig
  | Platform.windows => cfg.windows
  | Platform.linux => cfg.linux

/-- Models `self._cProjectOsOptions`: the `-G "<cmake_tool>"` flag. -/
def osOptionsOf (cfg : BuildConfig) (p : Platform) : String :=
  "-G \"" ++ (osConfigOf cfg p).cmake_tool ++ "\""

/-- Models the `self._cProjectAddtionalOptions` selection before rendering:
the template comes from the selected project's own `buildTypesConfig`
mapping; an absent mapping or an absent entry leaves the empty template. -/
def projectBuildTypeTemplate (project : Project) (buildType : String) : List TmplSeg :=
  match project.buildTypesConfig with
  | none => []
  | some m =>
    match lookupAssoc m buildType with
    | none => []
    | some btc => btc.options

/-- Models `configFilesOptionsString`: every config-file option becomes a
`-Dkey="value"` define flag, joined by single spaces in mapping order. -/
def configOptionsStringOf (opts : List (String × String)) : String :=
  String.intercalate " " (opts.map (fun kv => "-D" ++ kv.1 ++ "=\"" ++ kv.2 ++ "\""))

/-- Models Python `str.upper()` for the ASCII build-type names. -/
def strUpper (s : String) : String := ⟨s.data.map Char.toUpper⟩

/-- Result of `_ExtractCProjectInformation`: the fields the method stores on
the manager. -/
structure CProjectInfo where
  baseDir : String
  buildDir : String
  osOptions : String
  addOptions : String
  configOptionsString : String
  generateCommand : String
  buildCommand : String
  executablePath : Option String
deriving DecidableEq, Repr

/-- Models `Manager._ExtractCProjectInformation` for a C project.
`configFilesOptions` is the mapping the method obtains from
`_ExtractCConfigFilesOptions` (modelled separately by
`extractCConfigFilesOptions`). -/
def extractCProjectInformation (baseDir : String) (cfg : BuildConfig) (platform : Platform)
    (buildType : String) (configFilesOptions : List (String × String))
    (project : Project) (executable : Option ExecutableConfig) : CProjectInfo :=
  let projectDir := pathJoin platform baseDir project.name
  let buildDir := buildDirOf platform baseDir project.name buildType
  let constants := constantsOf buildDir projectDir project.name buildType platform.str
  let osOptions := osOptionsOf cfg platform
  let addOptions := renderT (projectBuildTypeTemplate project buildType) constants
  let cfgString := configOptionsStringOf configFilesOptions
  { baseDir := projectDir
    buildDir := buildDir
    osOptions := osOptions
    addOptions := addOptions
    configOptionsString := cfgString
    generateCommand :=
      "cmake -B " ++ buildDir ++ " " ++ osOptions ++ " " ++ addOptions ++ " " ++ cfgString ++ " "
    buildCommand := "cmake --build " ++ buildDir ++ " --config " ++ strUpper buildType
    executablePath :=
      executable.map (fun e =>
        renderT
          (match platform with
           | Platform.windows => e.windowsPath
           | Platform.linux => e.linuxPath) constants) }

/-! ## Action dispatcher (`Manager._Execute`) -/

/-- Models the run-target selection loop of the `run` branch of `_Execute`.
The Python loop variable `executable` is the same name as the accumulator,
so after a loop that never hits `break` the variable holds the *last*
element of the list; only an empty list leaves it `None`. -/
def selectRunExecutable (execs : List ExecutableConfig) : Option ExecutableConfig :=
  match execs.find? (fun e => e.name == "run") with
  | some e => some e
  | none => execs.getLast?

/-- Models `self._projectsDict` built by `_ExtractInformation`: C projects
first, then Python projects, inserted by name with last-write-wins. -/
def projectsDictOf (settings : Settings) : List (String × Project) :=
  ((settings.projects.filter (fun p => p.language == "C")) ++
      (settings.projects.filter (fun p => p.language == "Python"))).foldl
    (fun d p => setAssoc d p.name p) []

/-- The parsed CLI subcommands relevant to the claims (`build`, `run`,
`test` of `_ExtractArgs`). -/
inductive CliCommand where
  | build (projectName : String)
  | run (projectName : String)
  | test (projectName : String)
deriving DecidableEq, Repr

/-- One `RunCommand(command, cwd=...)` call emitted by `_Execute`. -/
structure EmittedCommand where
  cmd : String
  cwd : String
deriving DecidableEq, Repr

/-- Models `Manager._Execute`: the ordered sequence of `RunCommand` calls an
invocation performs (the eager `ValidateCommandExist` PATH probes are the
external dependency-check collaborator, not emitted commands).  Failed
assertions and raised errors are `Except.error`.  `configFilesOptions` is
the selected project's mapping from `_ExtractCConfigFilesOptions`.  Note the
source's `_Execute` has no branch for the `test` subcommand: the method
falls through and emits nothing. -/
def execute (baseDir : String) (settings : Settings) (platform : Platform) (buildType : String)
    (configFilesOptions : List (String × String)) :
    CliCommand → Except String (List EmittedCommand)
  | CliCommand.build projectName =>
    match lookupAssoc (projectsDictOf settings) projectName with
    | none => Except.error "Project not found."
    | some project =>
      if project.language = "C" then
        let info := extractCProjectInformation baseDir settings.config platform buildType
          configFilesOptions project none
        Except.ok [⟨info.generateCommand, info.baseDir⟩, ⟨info.buildCommand, info.baseDir⟩]
      else Except.error "Project is not a C project."
  | CliCommand.run projectName =>
    match lookupAssoc (projectsDictOf settings) projectName with
    | none => Except.error "Project not found."
    | some project =>
      if project.language = "Python" then
        Except.ok [⟨"uv sync", pathJoin platform baseDir project.name⟩,
                   ⟨"uv run main.py", pathJoin platform baseDir project.name⟩]
      else if project.language = "C" then
        match project.executables with
        | none => Except.error "No executables defined for project."
        | some execs =>
          match selectRunExecutable execs with
          | none => Except.error "No executable named run found."
          | some e =>
            let info := extractCProjectInformation baseDir settings.config platform buildType
              configFilesOptions project (some e)
            Except.ok
              ([⟨info.generateCommand, info.baseDir⟩, ⟨info.buildCommand, info.baseDir⟩] ++
                (match info.executablePath with
                 | some p => [⟨p, info.baseDir⟩]
                 | none => []))
      else Except.error "Run failed due to unsupported language."
  | CliCommand.test _ => Except.ok []

/-! ## Spec-side characterizations and concrete fixtures -/

/-- Pure effect of one config-file line on the option mapping when the line
is not an include: a `key = value` line assigns, every other line is a
no-op. -/
def kvStep (opts : List (String × String)) (line : String) : List (String × String) :=
  match lineKind line with
  | LineKind.kv k v => setAssoc opts k v
  | _ => opts

/-- The mapping denoted by a config file consisting of plain lines (no
includes): the lines' assignments applied in order to the empty mapping. -/
def kvMapOf (lines : List String) : List (String × String) := lines.foldl kvStep []

/-- Whether a line parses as a `key = value` assignment. -/
def isKVLine (l : String) : Bool :=
  match lineKind l with
  | LineKind.kv _ _ => true
  | _ => false

/-- Value of the last `key = value` line for key `k` in a list of lines,
if any: the reference meaning of "a later assignment to the same key
overwrites the earlier one". -/
def lastKV (lines : List String) (k : String) : Option String :=
  match lines with
  | [] => none
  | l :: ls =>
    match lastKV ls k with
    | some v => some v
    | none =>
      match lineKind l with
      | LineKind.kv k' v => if k' = k then some v else none
      | _ => none

/-- Concrete C executable project, as in end-to-end scenario 1 of the
specification. -/
def engineProject : Project := { name := "engine", language := "C", type := "executable" }

/-- Settings document holding only `engineProject`. -/
def settings0 : Settings := { config := defaultBuildConfig, projects := [engineProject] }

/-- Concrete C library project, eligible for the `test` action. -/
def libProject : Project := { name := "mylib", language := "C", type := "library" }

/-- Settings document holding only `libProject`. -/
def settingsLib : Settings := { config := defaultBuildConfig, projects := [libProject] }

/-- Concrete Python project, as in end-to-end scenario 2 of the
specification. -/
def toolProject : Project := { name := "tool", language := "Python", type := "executable" }

/-- Settings document holding only `toolProject`. -/
def settingsTool : Settings := { config := defaultBuildConfig, projects := [toolProject] }

/-- An executable target whose name is not `"run"`. -/
def demoExecutable : ExecutableConfig :=
  { name := "demo",
    windowsPath := [TmplSeg.varRef "BUILD_DIR", TmplSeg.lit "\\demo.exe"],
    linuxPath := [TmplSeg.varRef "BUILD_DIR", TmplSeg.lit "/demo"] }

/-- A C project whose executables list holds no `"run"` entry. -/
def appProject : Project :=
  { name := "app", language := "C", type := "executable",
    executables := some [demoExecutable] }

/-- Settings document holding only `appProject`. -/
def settingsApp : Settings := { config := defaultBuildConfig, projects := [appProject] }

/-- A concrete build-type option layer. -/
def debugOptionsConfig : BuildTypeConfig :=
  { options := [TmplSeg.lit "-DCMAKE_BUILD_TYPE=Debug"] }

/-- A C project carrying its own (per-project) build-type options mapping. -/
def optProject : Project :=
  { name := "opt", language := "C", type := "executable",
    buildTypesConfig := some [("debug", debugOptionsConfig)] }

/-- A concrete template-expansion context with the five documented keys and
nothing else. -/
def demoContext : List (String × String) := constantsOf "bd" "pd" "pn" "debug" "linux"

/-- Concrete config directory for the include scenario of claim C4:
`a.cfg` includes `b.cfg` and then reassigns `x`. -/
def includeDemoFS : String → Option (List String) := fun n =>
  if n = "a.cfg" then some ["<b.cfg>", "x = 2"]
  else if n = "b.cfg" then some ["x = 1"]
  else none

/-- Concrete config directory holding one flat file of `key = value` lines
with a repeated key. -/
def flatDemoFS : String → Option (List String) := fun n =>
  if n = "debug.cfg" then some ["OPT = -O2", "LEVEL = 2", "OPT = -O3"] else none

/-- Modelled from the spec: the build-type option layer as claim C2 and the
specification's data-model section describe it — taken from the *global*
`Settings.config.buildTypesConfig` entry for the selected build type and
expanded against the context map; an absent entry contributes an empty
layer.  Stated for comparison with the layer the source actually computes
(`projectBuildTypeTemplate`, read from the project). -/
def specBuildTypeOptionsLayer (cfg : BuildConfig) (buildType : String)
    (ctx : List (String × String)) : String :=
  match lookupAssoc cfg.buildTypesConfig buildType with
  | none => ""
  | some btc => renderT btc.options ctx

/-! ## Helper lemmas -/

theorem strEq_of_data {a b : String} (h : a.data = b.data) : a = b := by
  cases a
  cases b
  exact congrArg String.mk h

theorem strAppend_right_inj (a : String) {x y : String} (h : a ++ x = a ++ y) : x = y := by
  have hd := congrArg String.data h
  rw [String.data_append, String.data_append] at hd
  exact strEq_of_data (List.append_cancel_left hd)

theorem strAppend_assoc (a b c : String) : a ++ b ++ c = a ++ (b ++ c) := by
  apply strEq_of_data
  simp [String.data_append]

theorem sep_data_windows : (Platform.sep Platform.windows).data = ['\\'] := rfl

theorem sep_data_linux : (Platform.sep Platform.linux).data = ['/'] := rfl

theorem buildTypeStr_inj : ∀ t₁ t₂ : BuildType, t₁.str = t₂.str → t₁ = t₂ := by
  intro t₁ t₂ h
  cases t₁ <;> cases t₂ <;> first
    | rfl
    | exact absurd h (by decide)

theorem lookupAssoc_setAssoc {β : Type} (m : List (String × β)) (kn kq : String) (v : β) :
    lookupAssoc (setAssoc m kn v) kq = if kn = kq then some v else lookupAssoc m kq := by
  induction m with
  | nil => by_cases h : kn = kq <;> simp [setAssoc, lookupAssoc, h]
  | cons hd tl ih =>
    obtain ⟨k₀, v₀⟩ := hd
    by_cases h₀ : k₀ = kn
    · subst h₀
      by_cases hq : k₀ = kq <;> simp [setAssoc, lookupAssoc, hq]
    · by_cases hq : k₀ = kq
      · subst hq
        simp [setAssoc, h₀, lookupAssoc, show ¬ kn = k₀ from fun hh => h₀ hh.symm]
      · simp [setAssoc, h₀, lookupAssoc, hq, ih]

theorem lookup_kvFold (lines : List String) (init : List (String × String)) (k : String) :
    lookupAssoc (lines.foldl kvStep init) k =
      match lastKV lines k with
      | some v => some v
      | none => lookupAssoc init k := by
  induction lines generalizing init with
  | nil => simp [lastKV]
  | cons l ls ih =>
    rw [List.foldl_cons, ih (kvStep init l)]
    cases hv : lastKV ls k with
    | some v => simp [lastKV, hv]
    | none =>
      cases hk : lineKind l with
      | kv k' v' =>
        simp only [lastKV, hv, hk, kvStep, lookupAssoc_setAssoc]
        by_cases hkk : k' = k <;> simp [hkk]
      | skip => simp [lastKV, hv, hk, kvStep]
      | inc n => simp [lastKV, hv, hk, kvStep]

theorem foldlM_kv_lines (readInc : String → Option (List (String × String)))
    (lines : List String) (init : List (String × String))
    (h : ∀ l ∈ lines, isKVLine l = true) :
    List.foldlM (readLineStep readInc) init lines = some (List.foldl kvStep init lines) := by
  induction lines generalizing init with
  | nil => rfl
  | cons l ls ih =>
    have hl := h l (List.mem_cons_self l ls)
    cases hk : lineKind l with
    | skip => simp [isKVLine, hk] at hl
    | inc n => simp [isKVLine, hk] at hl
    | kv k v =>
      rw [List.foldlM_cons, List.foldl_cons]
      simp only [readLineStep, hk, kvStep, Option.bind_eq_bind, Option.some_bind]
      exact ih _ (fun x hx => h x (List.mem_cons_of_mem _ hx))

theorem renderT_append (a b : List TmplSeg) (ctx : List (String × String)) :
    renderT (a ++ b) ctx = renderT a ctx ++ renderT b ctx := by
  induction a with
  | nil => simp [renderT]
  | cons s rest ih =>
    cases s with
    | lit t => simp [renderT, ih, strAppend_assoc]
    | varRef k => simp [renderT, ih, strAppend_assoc]

theorem buildDir_ne_type (p : Platform) (base name : String) (t₁ t₂ : BuildType)
    (ht : t₁ ≠ t₂) : buildDirOf p base name t₁.str ≠ buildDirOf p base name t₂.str := by
  intro h
  have h2 : (pathJoin p (pathJoin p (pathJoin p base name) "build") p.str ++ p.sep) ++ t₁.str
      = (pathJoin p (pathJoin p (pathJoin p base name) "build") p.str ++ p.sep) ++ t₂.str := h
  exact ht (buildTypeStr_inj t₁ t₂ (strAppend_right_inj _ h2))

theorem buildDir_ne_platform (base name t₁ t₂ : String) :
    buildDirOf Platform.windows base name t₁ ≠ buildDirOf Platform.linux base name t₂ := by
  intro h
  have hd := congrArg String.data h
  simp only [buildDirOf, pathJoin, String.data_append, List.append_assoc,
    sep_data_windows, sep_data_linux, List.singleton_append] at hd
  have h₂ := List.append_cancel_left hd
  injection h₂ with hc _
  exact absurd hc (by decide)

/-! ## Claims -/

/-- Claim C1: for every C-language project, selected build type and host
platform, the `build` action emits exactly two commands, in order: first the
generate command `cmake -B <buildDir> ...` targeting the build directory
`<baseDir>/<name>/build/<platform>/<type>`, then the build command
`cmake --build <buildDir> --config <TYPE>` carrying the build type
upper-cased; no other command is emitted for the build action. -/
theorem buildAction_emits_generate_then_build
    (baseDir : String) (settings : Settings) (platform : Platform) (bt : BuildType)
    (cfgOpts : List (String × String)) (projectName : String) (project : Project)
    (hfind : lookupAssoc (projectsDictOf settings) projectName = some project)
    (hlang : project.language = "C") :
    execute baseDir settings platform bt.str cfgOpts (CliCommand.build projectName) =
      Except.ok
        [⟨"cmake -B " ++ buildDirOf platform baseDir project.name bt.str ++ " " ++
            osOptionsOf settings.config platform ++ " " ++
            renderT (projectBuildTypeTemplate project bt.str)
              (constantsOf (buildDirOf platform baseDir project.name bt.str)
                (pathJoin platform baseDir project.name) project.name bt.str platform.str) ++
            " " ++ configOptionsStringOf cfgOpts ++ " ",
          pathJoin platform baseDir project.name⟩,
         ⟨"cmake --build " ++ buildDirOf platform baseDir project.name bt.str ++ " --config " ++
            strUpper bt.str,
          pathJoin platform baseDir project.name⟩] := by
  simp [execute, hfind, hlang, extractCProjectInformation]

/-- Witness for claim C1 at the settings of end-to-end scenario 1. -/
theorem buildAction_emits_generate_then_build_witness :
    execute "base" settings0 Platform.linux BuildType.debug.str []
        (CliCommand.build "engine") =
      Except.ok
        [⟨"cmake -B " ++ buildDirOf Platform.linux "base" engineProject.name
              BuildType.debug.str ++ " " ++
            osOptionsOf settings0.config Platform.linux ++ " " ++
            renderT (projectBuildTypeTemplate engineProject BuildType.debug.str)
              (constantsOf
                (buildDirOf Platform.linux "base" engineProject.name BuildType.debug.str)
                (pathJoin Platform.linux "base" engineProject.name) engineProject.name
                BuildType.debug.str Platform.linux.str) ++
            " " ++ configOptionsStringOf [] ++ " ",
          pathJoin Platform.linux "base" engineProject.name⟩,
         ⟨"cmake --build " ++
            buildDirOf Platform.linux "base" engineProject.name BuildType.debug.str ++
            " --config " ++ strUpper BuildType.debug.str,
          pathJoin Platform.linux "base" engineProject.name⟩] :=
  buildAction_emits_generate_then_build "base" settings0 Platform.linux BuildType.debug []
    "engine" engineProject rfl rfl

/-- Claim C2, counterexample: the source takes the build-type option layer
from the *project's* `buildTypesConfig` (`project.buildTypesConfig` in
`_ExtractCProjectInformation`), not from the global
`Settings.config.buildTypesConfig` as the claim states.  For a project with
no per-project mapping the code produces the empty layer while the global
default mapping would yield `-DCMAKE_BUILD_TYPE=Debug`. -/
theorem buildTypeOptions_not_from_global_config :
    (extractCProjectInformation "base" defaultBuildConfig Platform.linux "debug" []
        engineProject none).addOptions ≠
      specBuildTypeOptionsLayer defaultBuildConfig "debug"
        (constantsOf (buildDirOf Platform.linux "base" "engine" "debug")
          (pathJoin Platform.linux "base" "engine") "engine" "debug" "linux") ∧
    (extractCProjectInformation "base" defaultBuildConfig Platform.linux "debug" []
        engineProject none).addOptions = "" ∧
    specBuildTypeOptionsLayer defaultBuildConfig "debug"
      (constantsOf (buildDirOf Platform.linux "base" "engine" "debug")
        (pathJoin Platform.linux "base" "engine") "engine" "debug" "linux") =
      "-DCMAKE_BUILD_TYPE=Debug" := by
  refine ⟨by decide, rfl, rfl⟩

/-- Claim C2 (amended): the build-type option layer of the generate command
is taken from the selected *project's* `buildTypesConfig` mapping entry for
the selected build type and expanded via the template expander against the
context map with keys BUILD_DIR, PROJECT_DIR, PROJECT_NAME, BUILD_TYPE and
PLATFORM; an absent mapping or an absent entry contributes an empty option
layer. -/
theorem buildTypeOptions_from_project (baseDir : String) (cfg : BuildConfig)
    (platform : Platform) (buildType : String) (cfgOpts : List (String × String))
    (project : Project) (e : Option ExecutableConfig) :
    (extractCProjectInformation baseDir cfg platform buildType cfgOpts project e).addOptions =
        renderT (projectBuildTypeTemplate project buildType)
          (constantsOf (buildDirOf platform baseDir project.name buildType)
            (pathJoin platform baseDir project.name) project.name buildType platform.str) ∧
      (project.buildTypesConfig = none → projectBuildTypeTemplate project buildType = []) ∧
      (∀ m, project.buildTypesConfig = some m → lookupAssoc m buildType = none →
        projectBuildTypeTemplate project buildType = []) ∧
      (∀ m btc, project.buildTypesConfig = some m → lookupAssoc m buildType = some btc →
        projectBuildTypeTemplate project buildType = btc.options) := by
  refine ⟨rfl, ?_, ?_, ?_⟩
  · intro h
    simp [projectBuildTypeTemplate, h]
  · intro m h1 h2
    simp [projectBuildTypeTemplate, h1, h2]
  · intro m btc h1 h2
    simp [projectBuildTypeTemplate, h1, h2]

/-- Witness for the amended claim C2 at a project carrying its own
build-type options entry. -/
theorem buildTypeOptions_from_project_witness :
    projectBuildTypeTemplate optProject "debug" = debugOptionsConfig.options :=
  (buildTypeOptions_from_project "base" defaultBuildConfig Platform.linux "debug" []
      optProject none).2.2.2 [("debug", debugOptionsConfig)] debugOptionsConfig rfl rfl

/-- Claim C3 (code-bug evidence): `_Execute` declares the `test` subcommand
in `_ExtractArgs` but has no `test` branch, so a `test` invocation on a
C library project emits no commands at all — the claim (and the spec's
action table) expects a generate command followed by a build command with a
test target flag. -/
theorem testAction_emits_no_commands :
    execute "base" settingsLib Platform.linux "test" [] (CliCommand.test "mylib") =
      Except.ok [] := rfl

/-- Claim C4: a config file of only `key = value` lines and no includes
yields exactly the mapping of those assignments applied in order (the last
assignment to a key wins), and in the include chain where `a.cfg` includes
`b.cfg` (which sets `x = 1`) and then itself sets `x = 2`, the result maps
`x` to `2` — lines processed top to bottom, includes expanded inline, later
assignments overwriting earlier ones. -/
theorem readOptions_flat_roundtrip_and_include_override :
    (∀ (fs : String → Option (List String)) (name : String) (fuel : Nat)
        (lines : List String) (k : String),
        fs name = some lines → (∀ l ∈ lines, isKVLine l = true) →
        readOptionsAux fs (fuel + 1) name = some (kvMapOf lines) ∧
          lookupAssoc (kvMapOf lines) k = lastKV lines k) ∧
      readOptionsAux includeDemoFS 2 "a.cfg" = some [("x", "2")] := by
  constructor
  · intro fs name fuel lines k hfs hkv
    constructor
    · simp only [readOptionsAux, hfs, kvMapOf]
      exact foldlM_kv_lines _ lines [] hkv
    · rw [kvMapOf, lookup_kvFold lines [] k]
      cases lastKV lines k <;> simp [lookupAssoc]
  · decide

/-- Witness for claim C4 at a flat three-line config file with a repeated
key. -/
theorem readOptions_flat_roundtrip_witness :
    readOptionsAux flatDemoFS 1 "debug.cfg" =
        some (kvMapOf ["OPT = -O2", "LEVEL = 2", "OPT = -O3"]) ∧
      lookupAssoc (kvMapOf ["OPT = -O2", "LEVEL = 2", "OPT = -O3"]) "OPT" =
        lastKV ["OPT = -O2", "LEVEL = 2", "OPT = -O3"] "OPT" :=
  readOptions_flat_roundtrip_and_include_override.1 flatDemoFS "debug.cfg" 0
    ["OPT = -O2", "LEVEL = 2", "OPT = -O3"] "OPT" rfl (by decide)

/-- Claim C5, counterexample: the source's template engine (jinja2 with its
default `Undefined`) does not raise on a placeholder whose key is absent
from the context — it silently substitutes the empty string, so the
template `a<FOO>b` over the five-key context renders to `"ab"`; the strict
renderer the claim describes fails (`none`) on the same input. -/
theorem render_substitutes_default_for_unknown :
    lookupAssoc demoContext "FOO" = none ∧
    renderT [TmplSeg.lit "a", TmplSeg.varRef "FOO", TmplSeg.lit "b"] demoContext = "ab" ∧
    renderStrictSpec [TmplSeg.lit "a", TmplSeg.varRef "FOO", TmplSeg.lit "b"] demoContext =
      none := by
  refine ⟨rfl, rfl, rfl⟩

/-- Claim C5 (amended): Render never raises for a placeholder whose key is
absent from the context; the unknown placeholder is silently replaced by
the empty string, contributing nothing to the output. -/
theorem render_missing_key_contributes_nothing (pre post : List TmplSeg)
    (ctx : List (String × String)) (k : String) (h : lookupAssoc ctx k = none) :
    renderT (pre ++ TmplSeg.varRef k :: post) ctx = renderT pre ctx ++ renderT post ctx := by
  rw [renderT_append]
  simp [renderT, h]

/-- Witness for the amended claim C5 at a concrete template and context. -/
theorem render_missing_key_witness :
    renderT ([TmplSeg.lit "a"] ++ TmplSeg.varRef "FOO" :: [TmplSeg.lit "b"]) demoContext =
      renderT [TmplSeg.lit "a"] demoContext ++ renderT [TmplSeg.lit "b"] demoContext :=
  render_missing_key_contributes_nothing [TmplSeg.lit "a"] [TmplSeg.lit "b"] demoContext
    "FOO" rfl

/-- Claim C6 (code-bug evidence): the `run` branch of `_Execute` reuses the
loop variable `executable` as its accumulator, so for a C project whose
executables list has no `"run"` entry the loop leaves the *last* executable
in the variable, the `assert executable is not None` guard (whose message
says no `"run"` executable was found) cannot fire, and that non-`"run"`
executable is resolved and executed — here `demo` is selected and its
expanded path is run. -/
theorem runAction_executes_nonRun_executable :
    demoExecutable.name ≠ "run" ∧
    selectRunExecutable [demoExecutable] = some demoExecutable ∧
    execute "base" settingsApp Platform.linux "debug" [] (CliCommand.run "app") =
      Except.ok
        [⟨(extractCProjectInformation "base" defaultBuildConfig Platform.linux "debug" []
            appProject (some demoExecutable)).generateCommand, "base/app"⟩,
         ⟨(extractCProjectInformation "base" defaultBuildConfig Platform.linux "debug" []
            appProject (some demoExecutable)).buildCommand, "base/app"⟩,
         ⟨"base/app/build/linux/debug/demo", "base/app"⟩] := by
  refine ⟨by decide, rfl, rfl⟩

/-- Claim C7: the computed build directory
`<baseDir>/<name>/build/<platform>/<buildType>` is uniquely determined by
the platform/build-type pair: any two distinct pairs drawn from
windows/linux times debug/release/test/web give different directories for
the same project name and base directory. -/
theorem buildDir_uniquely_determined (base name : String) (p₁ p₂ : Platform)
    (t₁ t₂ : BuildType) (hne : (p₁, t₁) ≠ (p₂, t₂)) :
    buildDirOf p₁ base name t₁.str ≠ buildDirOf p₂ base name t₂.str := by
  by_cases hp : p₁ = p₂
  · subst hp
    have ht : t₁ ≠ t₂ := fun he => hne (by rw [he])
    exact buildDir_ne_type p₁ base name t₁ t₂ ht
  · cases p₁ <;> cases p₂
    · exact absurd rfl hp
    · exact buildDir_ne_platform base name t₁.str t₂.str
    · exact fun h => buildDir_ne_platform base name t₂.str t₁.str h.symm
    · exact absurd rfl hp

/-- Witness for claim C7 at a concrete distinct pair of platforms. -/
theorem buildDir_uniquely_determined_witness :
    buildDirOf Platform.windows "b" "n" BuildType.debug.str ≠
      buildDirOf Platform.linux "b" "n" BuildType.debug.str :=
  buildDir_uniquely_determined "b" "n" Platform.windows Platform.linux BuildType.debug
    BuildType.debug (by decide)

/-- Claim C8: for every Python-language project, the `run` action emits
exactly two commands in order — the environment-sync command `uv sync`
followed by the entrypoint-run command `uv run main.py` — both with working
directory `<baseDir>/<name>`. -/
theorem pythonRun_emits_sync_then_run (baseDir : String) (settings : Settings)
    (platform : Platform) (buildType : String) (cfgOpts : List (String × String))
    (projectName : String) (project : Project)
    (hfind : lookupAssoc (projectsDictOf settings) projectName = some project)
    (hlang : project.language = "Python") :
    execute baseDir settings platform buildType cfgOpts (CliCommand.run projectName) =
      Except.ok [⟨"uv sync", pathJoin platform baseDir project.name⟩,
                 ⟨"uv run main.py", pathJoin platform baseDir project.name⟩] := by
  simp [execute, hfind, hlang]

/-- Witness for claim C8 at the settings of end-to-end scenario 2. -/
theorem pythonRun_emits_sync_then_run_witness :
    execute "base" settingsTool Platform.linux "debug" [] (CliCommand.run "tool") =
      Except.ok [⟨"uv sync", pathJoin Platform.linux "base" toolProject.name⟩,
                 ⟨"uv run main.py", pathJoin Platform.linux "base" toolProject.name⟩] :=
  pythonRun_emits_sync_then_run "base" settingsTool Platform.linux "debug" [] "tool"
    toolProject rfl rfl

/-- Claim C9: when the file `config/<buildType>.cfg` does not exist,
reading the config-file options returns the empty mapping and raises no
error. -/
theorem missingConfig_yields_empty_mapping (fs : String → Option (List String))
    (buildType : String) (fuel : Nat) (h : fs (buildType ++ ".cfg") = none) :
    extractCConfigFilesOptions fs fuel buildType = some [] := by
  simp [extractCConfigFilesOptions, readOptionsAux, h]

/-- Witness for claim C9 at an empty config directory. -/
theorem missingConfig_yields_empty_mapping_witness :
    extractCConfigFilesOptions (fun _ => none) 0 "test" = some [] :=
  missingConfig_yields_empty_mapping (fun _ => none) "test" 0 rfl

/-- Claim C10: for a fixed base directory, project name, platform and build
type, the composed build command is identical across any two runs that
differ only in the cascading config-file contents and the per-project
build-type options template, and it equals
`cmake --build <buildDir> --config <TYPE>` — the config-file `-D` define
flags and the expanded option layer appear only in the generate command,
never in the build command. -/
theorem buildCommand_independent_of_option_layers (baseDir : String) (cfg : BuildConfig)
    (platform : Platform) (buildType : String) (project : Project)
    (e : Option ExecutableConfig) (btc₁ btc₂ : Option (List (String × BuildTypeConfig)))
    (cfgOpts₁ cfgOpts₂ : List (String × String)) :
    (extractCProjectInformation baseDir cfg platform buildType cfgOpts₁
        { project with buildTypesConfig := btc₁ } e).buildCommand =
      (extractCProjectInformation baseDir cfg platform buildType cfgOpts₂
        { project with buildTypesConfig := btc₂ } e).buildCommand ∧
    (extractCProjectInformation baseDir cfg platform buildType cfgOpts₁
        { project with buildTypesConfig := btc₁ } e).buildCommand =
      "cmake --build " ++ buildDirOf platform baseDir project.name buildType ++
        " --config " ++ strUpper buildType := ⟨rfl, rfl⟩

end ProjectManager
